import Mathlib

/-!
Verification development for the FairExam-AI analysis and scoring engine.

The repository's frontend components (`FairnessScoreCard`, `DifficultyChart`,
`BloomsChart`, `CoverageChart`, `UploadForm`, `ResultsDisplay`, `App`) are
embedded directly from their JSX sources.  The backend engine
(`fairness_engine.py`, `azure_openai.py`, `analysis.py`) is not part of the
available sources; its data model and operations are modelled from the spec
(sections 3, 4, 6, 7), as marked on each such definition.
-/

namespace FairExam

/-- Closed three-level difficulty enumeration (spec section 3; the closed set is
also visible in `DifficultyChart.jsx` labels `Easy`, `Medium`, `Hard`). -/
inductive Difficulty
  | easy
  | medium
  | hard
deriving DecidableEq, Repr, Inhabited

/-- Closed six-level Bloom enumeration (spec section 3; the closed set is also
visible in `BloomsChart.jsx` levels array). -/
inductive CognitiveLevel
  | remember
  | understand
  | apply
  | analyze
  | evaluate
  | create
deriving DecidableEq, Repr, Inhabited

/-- All difficulty values, in the order displayed by `DifficultyChart.jsx`. -/
def allDifficulties : List Difficulty := [.easy, .medium, .hard]

/-- All cognitive levels, in the order displayed by `BloomsChart.jsx`. -/
def allLevels : List CognitiveLevel :=
  [.remember, .understand, .apply, .analyze, .evaluate, .create]

/-- Modelled from the spec: a classified exam question (spec section 3,
"Question"); the backend classifier producing it is not in the sources. -/
structure Question where
  id : Nat
  text : String
  difficulty : Difficulty
  cognitive_level : CognitiveLevel
  bias_flags : List String
deriving DecidableEq, Repr, Inhabited

/-- Split a character list at every occurrence of the separator. -/
def splitOnChar (c : Char) : List Char → List (List Char)
  | [] => [[]]
  | ch :: rest =>
    let r := splitOnChar c rest
    if ch = c then [] :: r
    else
      match r with
      | [] => [[ch]]
      | cur :: tail => (ch :: cur) :: tail

/-- Strip leading and trailing whitespace from a character list. -/
def trimChars (l : List Char) : List Char :=
  (((l.dropWhile Char.isWhitespace).reverse.dropWhile Char.isWhitespace)).reverse

/-- Strip leading and trailing whitespace (the JSX `trim()`). -/
def trimStr (s : String) : String := String.mk (trimChars s.data)

/-- Lower-case a string character-wise (text normalisation used by the
fallback heuristics, spec section 4.2/4.3 "normalized (lower-cased ...)"). -/
def lowerStr (s : String) : String := String.mk (s.data.map Char.toLower)

/-- Split a string into non-empty lower-cased space-separated tokens. -/
def tokensOf (s : String) : List String :=
  ((splitOnChar ' ' (lowerStr s).data).map String.mk).filter (fun t => t ≠ "")

/-- Action verbs associated with higher cognitive load (spec section 4.2). -/
def hardVerbs : List String := ["analyze", "evaluate", "design"]

/-- Factual-recall verbs mapping toward Easy (spec section 4.2). -/
def easyVerbs : List String := ["define", "list", "state"]

/-- Modelled from the spec: fallback difficulty heuristic (spec section 4.2) —
action verbs of higher cognitive load map toward Hard, short factual-recall
phrasing maps toward Easy, otherwise Medium.  The backend implementation is
not in the sources. -/
def fallbackDifficulty (text : String) : Difficulty :=
  let ts := tokensOf text
  if ts.any (fun t => hardVerbs.contains t) then .hard
  else if ts.any (fun t => easyVerbs.contains t) then .easy
  else .medium

/-- Keyword-to-Bloom-level lookup table (spec section 4.2). -/
def bloomKeywords : List (String × CognitiveLevel) :=
  [("define", .remember), ("list", .remember), ("state", .remember),
   ("explain", .understand), ("describe", .understand),
   ("apply", .apply), ("solve", .apply),
   ("analyze", .analyze), ("compare", .analyze),
   ("evaluate", .evaluate), ("justify", .evaluate),
   ("design", .create), ("create", .create)]

/-- Modelled from the spec: fallback cognitive-level heuristic (spec section
4.2) — first matching keyword wins, default Understand.  The backend
implementation is not in the sources. -/
def fallbackCognitive (text : String) : CognitiveLevel :=
  match (tokensOf text).findSome? (fun t => bloomKeywords.lookup t) with
  | some l => l
  | none => .understand

/-- Modelled from the spec: a per-question fallback classification (spec
section 4.2); bias flags are the empty set on the fallback path. -/
def fallbackClassify (i : Nat) (text : String) : Question :=
  { id := i, text := text,
    difficulty := fallbackDifficulty text,
    cognitive_level := fallbackCognitive text,
    bias_flags := [] }

/-- A well-formed per-question entry of the external classifier's response. -/
structure ClassEntry where
  difficulty : Difficulty
  cognitive_level : CognitiveLevel
  bias_flags : List String
deriving DecidableEq, Repr, Inhabited

/-- Modelled from the spec: `classify` (spec section 4.2).  The external
classifier's response is a structured object keyed by question index, here a
function returning `none` for a missing, malformed or out-of-range index
(and `fun i => none` everywhere when the whole service is unavailable).  Every
input index missing from the response is filled by the fallback heuristic
rather than failing the whole batch. -/
def classify (resp : Nat → Option ClassEntry) (qs : List String) : List Question :=
  (List.range qs.length).map (fun i =>
    let text := qs.getD i ""
    match resp i with
    | some e => { id := i, text := text, difficulty := e.difficulty,
                  cognitive_level := e.cognitive_level, bias_flags := e.bias_flags }
    | none => fallbackClassify i text)

/-- Modelled from the spec: the external classifier environment (spec section
6, `ExternalClassifier.request`).  Each field is one stage's response;
`none` stands for Unavailable, Timeout or MalformedResponse — the spec
requires the engine to treat all three identically. -/
structure ClassifierEnv where
  topicsResp : Option (List String)
  classifyResp : Nat → Option ClassEntry
  matchResp : Option (Nat → List String)

/-- The environment in which every external call fails. -/
def unavailableEnv : ClassifierEnv :=
  { topicsResp := none, classifyResp := fun _ => none, matchResp := none }

/-- Modelled from the spec: the error taxonomy surfaced to the caller (spec
section 7) — input-level errors and `NoTopicsFound`. -/
inductive AnalysisError
  | inputError (msg : String)
  | noTopicsFound
deriving DecidableEq, Repr

/-- A classifier topics response is well formed when it is a non-empty list of
non-empty strings (spec section 4.1). -/
def wellFormedTopics (ts : List String) : Bool :=
  !ts.isEmpty && ts.all (fun t => trimStr t ≠ "")

/-- Non-blank trimmed lines of a text (heading-like line structure used by the
fallback topic heuristic, spec section 4.1). -/
def nonBlankLines (s : String) : List String :=
  (((splitOnChar '\n' s.data).map String.mk).map trimStr).filter (fun l => l ≠ "")

/-- Modelled from the spec: deterministic fallback topic extraction from
syllabus line structure (spec section 4.1); it must produce a non-empty set
given any non-empty input, so a syllabus with no line structure yields its
whole trimmed text as the single candidate topic. -/
def fallbackTopics (syl : String) : List String :=
  let ls := nonBlankLines syl
  if ls.isEmpty then [trimStr syl] else ls

/-- Modelled from the spec: `extract_topics` (spec section 4.1) — fails with
`NoTopicsFound` on empty/whitespace syllabus text; otherwise uses the external
classifier's list when well formed and the deterministic fallback when the
classifier is unavailable or its output malformed. -/
def extract_topics (env : ClassifierEnv) (syl : String) :
    Except AnalysisError (List String) :=
  if trimStr syl = "" then .error .noTopicsFound
  else
    match env.topicsResp with
    | some ts => if wellFormedTopics ts then .ok ts else .ok (fallbackTopics syl)
    | none => .ok (fallbackTopics syl)

/-- Stop words stripped before lexical matching (spec section 4.3). -/
def stopWords : List String := ["the", "a", "an", "of", "to", "and", "in", "is", "on", "for"]

/-- Normalized content tokens: lower-cased, stop-word-stripped (spec 4.3). -/
def contentTokens (s : String) : List String :=
  (tokensOf s).filter (fun t => !stopWords.contains t)

/-- Modelled from the spec: lexical-overlap fallback match (spec section 4.3)
— a question matches a topic when they share at least one content token. -/
def lexicalMatch (qtext topic : String) : Bool :=
  (contentTokens qtext).any (fun t => (contentTokens topic).contains t)

/-- Modelled from the spec: the per-question topic assignment used by the
Topic Matcher (spec section 4.3).  On the primary path the classifier's
labels are filtered to the fixed topic set (labels outside the set are
dropped); on the fallback path lexical overlap is used. -/
def assignOf (env : ClassifierEnv) (qs : List Question) (topics : List String) :
    Nat → List String :=
  match env.matchResp with
  | some f => fun i => (f i).filter (fun l => topics.contains l)
  | none => fun i => topics.filter (fun t => lexicalMatch (qs.getD i default).text t)

/-- Modelled from the spec: the `TopicCoverage` aggregate (spec sections 3 and
4.3); field names follow the exposed `coverage_analysis` object. -/
structure TopicCoverage where
  topic_coverage : List (String × Nat)
  covered_topics : Nat
  total_topics : Nat
  ignored_topics : List String
  over_represented : List String
  coverage_percentage : ℚ
deriving DecidableEq, Repr

/-- Number of questions (among indices `0..n-1`) assigned to topic `t`. -/
def countFor (assign : Nat → List String) (n : Nat) (t : String) : Nat :=
  ((List.range n).filter (fun i => (assign i).contains t)).length

/-- Modelled from the spec: build the `TopicCoverage` mapping over the fixed
topic set (spec section 4.3): per-topic count; `covered_topics` = topics with
count at least 1; `ignored_topics` = topics with count 0; `over_represented`
= topics whose count exceeds twice the mean non-zero count. -/
def buildCoverage (assign : Nat → List String) (numQs : Nat)
    (topics : List String) : TopicCoverage :=
  let counts := topics.map (fun t => (t, countFor assign numQs t))
  let nz := (counts.map Prod.snd).filter (fun c => c != 0)
  let meanNz : ℚ := if nz.isEmpty then 0 else (nz.sum : ℚ) / nz.length
  { topic_coverage := counts,
    covered_topics := (counts.filter (fun p => p.2 != 0)).length,
    total_topics := topics.length,
    ignored_topics := (counts.filter (fun p => !(p.2 != 0))).map Prod.fst,
    over_represented := (counts.filter (fun p => decide ((p.2 : ℚ) > 2 * meanNz))).map Prod.fst,
    coverage_percentage :=
      if topics.isEmpty then 0
      else ((counts.filter (fun p => p.2 != 0)).length : ℚ) / topics.length * 100 }

/-- The Topic Matcher: coverage built from the environment's assignment. -/
def matchTopics (env : ClassifierEnv) (qs : List Question) (topics : List String) :
    TopicCoverage :=
  buildCoverage (assignOf env qs topics) qs.length topics

/-- Clamp a raw score to the interval from 0 to 100 (spec section 4.4). -/
def clampScore (x : ℚ) : ℚ := max 0 (min 100 x)

/-- Round to one decimal place (spec section 4.4, "rounded to one decimal"). -/
def round1 (x : ℚ) : ℚ := ((round (10 * x) : ℤ) : ℚ) / 10

/-- Number of questions with the given difficulty. -/
def countDifficulty (qs : List Question) (d : Difficulty) : Nat :=
  (qs.filter (fun q => q.difficulty == d)).length

/-- Number of questions with the given cognitive level. -/
def countLevel (qs : List Question) (l : CognitiveLevel) : Nat :=
  (qs.filter (fun q => q.cognitive_level == l)).length

/-- Percentage of a count within a total (0 when the total is 0). -/
def pctOf (c total : Nat) : ℚ :=
  if total = 0 then 0 else (c : ℚ) / total * 100

/-- The ideal difficulty distribution 30/50/20 (README "Ideal: 30% Easy, 50%
Medium, 20% Hard", also shown by `DifficultyChart.jsx`). -/
def idealEasy : ℚ := 30

/-- Ideal Medium percentage. -/
def idealMedium : ℚ := 50

/-- Ideal Hard percentage. -/
def idealHard : ℚ := 20

/-- Sum of absolute deviations of an observed percentage triple from the
ideal distribution (spec section 4.4). -/
def deviationFromIdeal (e m h : ℚ) : ℚ :=
  |e - idealEasy| + |m - idealMedium| + |h - idealHard|

/-- Modelled from the spec: Difficulty Balance Score with an explicit penalty
factor (spec section 4.4): `100 − min(100, sum(|observed − ideal|) × p)`. -/
def difficultyBalanceP (p : ℚ) (e m h : ℚ) : ℚ :=
  100 - min 100 (deviationFromIdeal e m h * p)

/-- The configured penalty factor: with factor 1 the ideal distribution scores
100 and a maximal-deviation distribution (100% in one bucket, deviation 140
or 160) scores 0 (spec section 4.4). -/
def penaltyFactor : ℚ := 1

/-- Difficulty Balance Score of a classified question list. -/
def difficultyBalanceScore (qs : List Question) : ℚ :=
  let n := qs.length
  difficultyBalanceP penaltyFactor
    (pctOf (countDifficulty qs .easy) n)
    (pctOf (countDifficulty qs .medium) n)
    (pctOf (countDifficulty qs .hard) n)

/-- Number of distinct cognitive levels used by at least one question. -/
def distinctLevelsUsed (qs : List Question) : Nat :=
  (allLevels.filter (fun l => countLevel qs l != 0)).length

/-- Modelled from the spec: Bloom's Balance Score (spec section 4.4) — a
dispersion measure of the cognitive-level distribution normalized to 0–100:
uniform coverage of all six levels yields 100, concentration scores low, with
the policy floor of 10 so small exams never score zero.  The spec (section 9)
leaves the exact dispersion formula open; the measure used here is the
fraction of the six levels in use. -/
def bloomsBalanceScore (qs : List Question) : ℚ :=
  max 10 ((distinctLevelsUsed qs : ℚ) * 100 / 6)

/-- Configured penalty per over-represented topic (spec section 4.4). -/
def overPenalty : ℚ := 5

/-- Configured penalty per ignored topic (spec section 4.4). -/
def ignoredPenalty : ℚ := 5

/-- Modelled from the spec: Syllabus Coverage Score (spec section 4.4) — base
coverage percentage, penalized per over-represented and per ignored topic,
capped so the score cannot go negative. -/
def coverageScore (tc : TopicCoverage) : ℚ :=
  max 0 (tc.coverage_percentage
    - overPenalty * tc.over_represented.length
    - ignoredPenalty * tc.ignored_topics.length)

/-- Modelled from the spec: one component's entry of `component_scores` (spec
sections 3 and 6). -/
structure ComponentScore where
  score : ℚ
  weight : ℚ
  weighted_contribution : ℚ
deriving DecidableEq, Repr

/-- The three fixed components of `component_scores` (README: Difficulty
Balance 40%, Bloom's Balance 30%, Syllabus Coverage 30%). -/
structure ComponentScores where
  difficulty_balance : ComponentScore
  blooms_balance : ComponentScore
  syllabus_coverage : ComponentScore
deriving DecidableEq, Repr

/-- The `distribution` object of `difficulty_analysis` (spec section 6). -/
structure DifficultyDist where
  Easy : Nat
  Medium : Nat
  Hard : Nat
deriving DecidableEq, Repr

/-- The `difficulty_analysis` object (spec section 6). -/
structure DifficultyAnalysis where
  distribution : DifficultyDist
  total_questions : Nat
deriving DecidableEq, Repr

/-- The `distribution` object of `blooms_analysis` (spec section 6). -/
structure BloomsDist where
  Remember : Nat
  Understand : Nat
  Apply : Nat
  Analyze : Nat
  Evaluate : Nat
  Create : Nat
deriving DecidableEq, Repr

/-- The `blooms_analysis` object (spec section 6). -/
structure BloomsAnalysis where
  distribution : BloomsDist
deriving DecidableEq, Repr

/-- The `bias_analysis` object (spec section 6). -/
structure BiasAnalysis where
  bias_detected : Bool
  issues : List String
  fairness_indicators : List (String × ℚ)
deriving DecidableEq, Repr

/-- The `exam_metadata` object (spec section 6). -/
structure ExamMetadata where
  exam_filename : String
  total_questions : Nat
deriving DecidableEq, Repr

/-- Modelled from the spec: the full result object exposed to the
presentation layer (spec section 6); `ResultsDisplay.jsx` destructures
exactly these nine fields. -/
structure FairnessResult where
  fairness_score : ℚ
  interpretation : String
  component_scores : ComponentScores
  suggestions : List String
  difficulty_analysis : DifficultyAnalysis
  blooms_analysis : BloomsAnalysis
  coverage_analysis : TopicCoverage
  bias_analysis : BiasAnalysis
  exam_metadata : ExamMetadata
deriving DecidableEq, Repr

/-- Modelled from the spec: interpretation text selected by score bracket
(spec section 4.4); the brackets are those of `getScoreColor` in
`FairnessScoreCard.jsx`. -/
def interpretationFor (s : ℚ) : String :=
  if s ≥ 85 then "Excellent - This exam paper is well balanced and fair."
  else if s ≥ 70 then "Good - This exam paper shows reasonable balance."
  else if s ≥ 55 then "Fair - This exam paper has noticeable imbalances."
  else if s ≥ 40 then "Needs Improvement - This exam paper has significant imbalances."
  else "Poor - This exam paper is heavily imbalanced."

/-- Modelled from the spec: the suggestion rule list (spec section 4.4) —
independent rules in stable order: difficulty rules, then cognitive rules,
then coverage rules. -/
def suggestionsFor (qs : List Question) (tc : TopicCoverage) : List String :=
  let n := qs.length
  (if pctOf (countDifficulty qs .hard) n > idealHard + 10 then
    ["Difficulty is skewed toward Hard questions; rebalance toward the ideal 30/50/20 split."]
  else []) ++
  (if pctOf (countDifficulty qs .easy) n > idealEasy + 10 then
    ["Difficulty is skewed toward Easy questions; rebalance toward the ideal 30/50/20 split."]
  else []) ++
  (if distinctLevelsUsed qs < 3 then
    ["Questions concentrate on few cognitive levels; spread them across more of Bloom's taxonomy."]
  else []) ++
  (if !tc.ignored_topics.isEmpty then
    ["Some syllabus topics are not covered by any question: " ++
      String.intercalate ", " tc.ignored_topics]
  else []) ++
  (if !tc.over_represented.isEmpty then
    ["Some topics are over-represented: " ++
      String.intercalate ", " tc.over_represented]
  else [])

/-- The component weights 40/30/30 (README "Fairness Score Calculation"). -/
def weightDifficulty : ℚ := 40

/-- Bloom's Balance weight. -/
def weightBlooms : ℚ := 30

/-- Syllabus Coverage weight. -/
def weightCoverage : ℚ := 30

/-- Collect all bias flags found on the questions. -/
def allBiasFlags (qs : List Question) : List String :=
  qs.foldr (fun q acc => q.bias_flags ++ acc) []

/-- Modelled from the spec: the Fairness Scorer `score(questions, coverage)`
(spec section 4.4) — a pure function of its inputs: each component raw score
is clamped to 0–100 before weighting, the weighted sum is clamped to 0–100
and rounded to one decimal, the interpretation is selected by score bracket,
and the suggestion rule list is evaluated in stable order. -/
def score (qs : List Question) (tc : TopicCoverage) (fname : String) : FairnessResult :=
  let d := clampScore (difficultyBalanceScore qs)
  let b := clampScore (bloomsBalanceScore qs)
  let c := clampScore (coverageScore tc)
  let overall := round1 (clampScore
    (weightDifficulty / 100 * d + weightBlooms / 100 * b + weightCoverage / 100 * c))
  let flags := allBiasFlags qs
  { fairness_score := overall,
    interpretation := interpretationFor overall,
    component_scores :=
      { difficulty_balance :=
          { score := d, weight := weightDifficulty, weighted_contribution := weightDifficulty / 100 * d },
        blooms_balance :=
          { score := b, weight := weightBlooms, weighted_contribution := weightBlooms / 100 * b },
        syllabus_coverage :=
          { score := c, weight := weightCoverage, weighted_contribution := weightCoverage / 100 * c } },
    suggestions := suggestionsFor qs tc,
    difficulty_analysis :=
      { distribution :=
          { Easy := countDifficulty qs .easy,
            Medium := countDifficulty qs .medium,
            Hard := countDifficulty qs .hard },
        total_questions := qs.length },
    blooms_analysis :=
      { distribution :=
          { Remember := countLevel qs .remember,
            Understand := countLevel qs .understand,
            Apply := countLevel qs .apply,
            Analyze := countLevel qs .analyze,
            Evaluate := countLevel qs .evaluate,
            Create := countLevel qs .create } },
    coverage_analysis := tc,
    bias_analysis :=
      { bias_detected := !flags.isEmpty,
        issues := flags,
        fairness_indicators :=
          [("difficulty_balance", d), ("blooms_balance", b), ("syllabus_coverage", c)] },
    exam_metadata := { exam_filename := fname, total_questions := qs.length } }

/-- Modelled from the spec: the scorer stage as run inside the pipeline, with
the classifier environment in scope like every other stage; the scorer is
required to perform no external call, so it ignores the environment. -/
def scoreInEnv (_env : ClassifierEnv) (qs : List Question) (tc : TopicCoverage)
    (fname : String) : FairnessResult :=
  score qs tc fname

/-- Modelled from the spec: one whole analysis run (spec sections 2 and 7) —
empty input is surfaced as an input-level error before analysis; topic
extraction may surface `NoTopicsFound`; classification and matching never
fail (fallback heuristics); the scorer is pure. -/
def runAnalysis (env : ClassifierEnv) (fname : String) (qtexts : List String)
    (syl : String) : Except AnalysisError FairnessResult :=
  if qtexts.isEmpty then
    .error (.inputError "No questions found in the exam paper")
  else
    match extract_topics env syl with
    | .error e => .error e
    | .ok topics =>
      let qs := classify env.classifyResp qtexts
      let tc := matchTopics env qs topics
      .ok (scoreInEnv env qs tc fname)

/-- `Except` discriminator used to state full-or-error behaviour. -/
def isOkB : Except AnalysisError FairnessResult → Bool
  | .ok _ => true
  | .error _ => false

/-- Embedded from `FairnessScoreCard.jsx` (`getScoreColor`): the score-bracket
if-chain selecting the display colour. -/
def getScoreColor (score : ℚ) : String :=
  if score ≥ 85 then "#28a745"
  else if score ≥ 70 then "#5cb85c"
  else if score ≥ 55 then "#ffc107"
  else if score ≥ 40 then "#ff9800"
  else "#dc3545"

/-- The five interpretation bands (spec section 4.4). -/
inductive Band
  | excellent
  | good
  | fairBand
  | needsImprovement
  | poor
deriving DecidableEq, Repr

/-- The interval of scores each band covers, as realised by the if-chains of
`getScoreColor` and `interpretationFor`: at least 85 Excellent, 70 up to but
excluding 85 Good, 55 up to 70 Fair, 40 up to 55 Needs Improvement, below 40
Poor. -/
def bandMem (b : Band) (s : ℚ) : Prop :=
  match b with
  | .excellent => 85 ≤ s
  | .good => 70 ≤ s ∧ s < 85
  | .fairBand => 55 ≤ s ∧ s < 70
  | .needsImprovement => 40 ≤ s ∧ s < 55
  | .poor => s < 40

/-- The band the code's if-chain selects for a score. -/
def bandOf (s : ℚ) : Band :=
  if s ≥ 85 then .excellent
  else if s ≥ 70 then .good
  else if s ≥ 55 then .fairBand
  else if s ≥ 40 then .needsImprovement
  else .poor

/-- The colour `FairnessScoreCard.jsx` associates with each band. -/
def bandColor : Band → String
  | .excellent => "#28a745"
  | .good => "#5cb85c"
  | .fairBand => "#ffc107"
  | .needsImprovement => "#ff9800"
  | .poor => "#dc3545"

/-- Decimal rendering with one fractional digit of a non-negative rational
(model of JavaScript `Number.prototype.toFixed(1)` for the tooltip). -/
def ratToFixed1 (x : ℚ) : String :=
  let n : ℤ := round (10 * x)
  toString (n / 10) ++ "." ++ toString (n % 10)

/-- Embedded from `DifficultyChart.jsx` (tooltip label callback): the
percentage is computed by division only under the guard
`total_questions > 0`, and is the literal 0 otherwise. -/
def tooltipPercentage (value total : Nat) : String :=
  if total > 0 then ratToFixed1 ((value : ℚ) / (total : ℚ) * 100) else "0"

/-- Embedded from `DifficultyChart.jsx`: the full tooltip label string. -/
def tooltipLabel (label : String) (value total : Nat) : String :=
  label ++ ": " ++ toString value ++ " questions (" ++ tooltipPercentage value total ++ "%)"

/-- Embedded from `UploadForm.jsx`: the component state — the two selected
files (file truthiness in the JSX corresponds to `Option.isSome`). -/
structure UploadFormState where
  examFile : Option String
  syllabusFile : Option String
deriving DecidableEq, Repr

/-- Embedded from `UploadForm.jsx` (`isReady`): both files selected. -/
def isReady (st : UploadFormState) : Bool :=
  st.examFile.isSome && st.syllabusFile.isSome

/-- Embedded from `UploadForm.jsx` (`handleSubmit`): the `onAnalyze` call the
submit handler makes, `none` when no call is made. -/
def handleSubmit (st : UploadFormState) : Option (String × String) :=
  match st.examFile, st.syllabusFile with
  | some e, some s => some (e, s)
  | _, _ => none

/-- Embedded from `UploadForm.jsx`: the analyze button's `disabled` flag. -/
def analyzeButtonDisabled (st : UploadFormState) : Bool := !(isReady st)

/-- A JSON-like value tree, used to state the exposed result shape. -/
inductive JsonVal
  | num (q : ℚ)
  | str (s : String)
  | jbool (b : Bool)
  | arr (elems : List JsonVal)
  | obj (fields : List (String × JsonVal))

/-- Keys of a JSON object (empty for non-objects). -/
def jsonKeys : JsonVal → List String
  | .obj fs => fs.map Prod.fst
  | _ => []

/-- Field lookup in a JSON object. -/
def getField : JsonVal → String → Option JsonVal
  | .obj fs, k => fs.lookup k
  | _, _ => none

/-- Keys found at a path of field names from the root. -/
def keysAt (j : JsonVal) : List String → List String
  | [] => jsonKeys j
  | k :: ks =>
    match getField j k with
    | some v => keysAt v ks
    | none => []

/-- Modelled from the spec: serialisation of one component-score entry (spec
section 6: `{ score, weight, weighted_contribution }`). -/
def encodeComponent (c : ComponentScore) : JsonVal :=
  .obj [("score", .num c.score), ("weight", .num c.weight),
        ("weighted_contribution", .num c.weighted_contribution)]

/-- Modelled from the spec: serialisation of a `FairnessResult` into the
exact field names and nesting of the downstream boundary (spec section 6),
the shape `ResultsDisplay.jsx` destructures. -/
def encodeResult (r : FairnessResult) : JsonVal :=
  .obj [
    ("fairness_score", .num r.fairness_score),
    ("interpretation", .str r.interpretation),
    ("component_scores", .obj [
      ("difficulty_balance", encodeComponent r.component_scores.difficulty_balance),
      ("blooms_balance", encodeComponent r.component_scores.blooms_balance),
      ("syllabus_coverage", encodeComponent r.component_scores.syllabus_coverage)]),
    ("suggestions", .arr (r.suggestions.map .str)),
    ("difficulty_analysis", .obj [
      ("distribution", .obj [
        ("Easy", .num r.difficulty_analysis.distribution.Easy),
        ("Medium", .num r.difficulty_analysis.distribution.Medium),
        ("Hard", .num r.difficulty_analysis.distribution.Hard)]),
      ("total_questions", .num r.difficulty_analysis.total_questions)]),
    ("blooms_analysis", .obj [
      ("distribution", .obj [
        ("Remember", .num r.blooms_analysis.distribution.Remember),
        ("Understand", .num r.blooms_analysis.distribution.Understand),
        ("Apply", .num r.blooms_analysis.distribution.Apply),
        ("Analyze", .num r.blooms_analysis.distribution.Analyze),
        ("Evaluate", .num r.blooms_analysis.distribution.Evaluate),
        ("Create", .num r.blooms_analysis.distribution.Create)])]),
    ("coverage_analysis", .obj [
      ("coverage_percentage", .num r.coverage_analysis.coverage_percentage),
      ("covered_topics", .num r.coverage_analysis.covered_topics),
      ("total_topics", .num r.coverage_analysis.total_topics),
      ("over_represented", .arr (r.coverage_analysis.over_represented.map .str)),
      ("ignored_topics", .arr (r.coverage_analysis.ignored_topics.map .str)),
      ("topic_coverage", .obj (r.coverage_analysis.topic_coverage.map
        (fun p => (p.1, JsonVal.num p.2))))]),
    ("bias_analysis", .obj [
      ("bias_detected", .jbool r.bias_analysis.bias_detected),
      ("issues", .arr (r.bias_analysis.issues.map .str)),
      ("fairness_indicators", .obj (r.bias_analysis.fairness_indicators.map
        (fun p => (p.1, JsonVal.num p.2))))]),
    ("exam_metadata", .obj [
      ("exam_filename", .str r.exam_metadata.exam_filename),
      ("total_questions", .num r.exam_metadata.total_questions)])]

/-! ### Helper lemmas -/

/-- A clamped score is non-negative. -/
theorem clampScore_nonneg (x : ℚ) : 0 ≤ clampScore x := le_max_left 0 _

/-- A clamped score is at most 100. -/
theorem clampScore_le_100 (x : ℚ) : clampScore x ≤ 100 :=
  max_le (by norm_num) (min_le_left _ _)

/-- Rounding to one decimal preserves non-negativity. -/
theorem round1_nonneg {x : ℚ} (h : 0 ≤ x) : 0 ≤ round1 x := by
  unfold round1
  have hr : (0 : ℤ) ≤ round (10 * x) := by
    rw [round_eq]
    exact Int.floor_nonneg.mpr (by linarith)
  have : (0 : ℚ) ≤ ((round (10 * x) : ℤ) : ℚ) := by exact_mod_cast hr
  linarith

/-- Rounding to one decimal preserves the upper bound 100. -/
theorem round1_le_100 {x : ℚ} (h : x ≤ 100) : round1 x ≤ 100 := by
  unfold round1
  have hr : round (10 * x) ≤ 1000 := by
    rw [round_eq]
    calc ⌊10 * x + 1 / 2⌋ ≤ ⌊(1000 + 1 / 2 : ℚ)⌋ := Int.floor_mono (by linarith)
    _ = 1000 := by norm_num
  have : ((round (10 * x) : ℤ) : ℚ) ≤ 1000 := by exact_mod_cast hr
  linarith

/-- Every difficulty value lies in the closed three-element enumeration. -/
theorem mem_allDifficulties (d : Difficulty) : d ∈ allDifficulties := by
  cases d <;> simp [allDifficulties]

/-- Every cognitive level lies in the closed six-element enumeration. -/
theorem mem_allLevels (l : CognitiveLevel) : l ∈ allLevels := by
  cases l <;> simp [allLevels]

/-! ### Claims -/

/-- C1: for every input (questions, coverage), the overall fairness score lies
in the interval from 0 to 100 and equals the weighted sum 40% Difficulty
Balance + 30% Bloom Balance + 30% Syllabus Coverage, each component raw score
clamped to 0–100 before weighting, the final result clamped to 0–100 and
rounded to one decimal. -/
theorem fairnessScore_bounds_and_weighted_sum :
    ∀ (qs : List Question) (tc : TopicCoverage) (fname : String),
      (0 ≤ (score qs tc fname).fairness_score ∧
        (score qs tc fname).fairness_score ≤ 100) ∧
      (score qs tc fname).fairness_score =
        round1 (clampScore
          (40 / 100 * clampScore (difficultyBalanceScore qs)
            + 30 / 100 * clampScore (bloomsBalanceScore qs)
            + 30 / 100 * clampScore (coverageScore tc))) := by
  intro qs tc fname
  refine ⟨⟨round1_nonneg (clampScore_nonneg _), round1_le_100 (clampScore_le_100 _)⟩, rfl⟩

/-- C2: the Difficulty Balance Score `100 − min(100, deviation × p)` equals
100 at the ideal 30/50/20 distribution for every non-negative penalty factor,
and is monotonically non-increasing in the total absolute deviation from the
ideal: of two distributions, the more-deviating one scores no higher. -/
theorem difficultyBalance_ideal_and_monotone :
    ∀ p : ℚ, 0 ≤ p →
      difficultyBalanceP p idealEasy idealMedium idealHard = 100 ∧
      ∀ e₁ m₁ h₁ e₂ m₂ h₂ : ℚ,
        deviationFromIdeal e₁ m₁ h₁ ≤ deviationFromIdeal e₂ m₂ h₂ →
        difficultyBalanceP p e₂ m₂ h₂ ≤ difficultyBalanceP p e₁ m₁ h₁ := by
  intro p hp
  constructor
  · unfold difficultyBalanceP deviationFromIdeal
    norm_num
  · intro e₁ m₁ h₁ e₂ m₂ h₂ hd
    unfold difficultyBalanceP
    have hmin : min 100 (deviationFromIdeal e₁ m₁ h₁ * p)
        ≤ min 100 (deviationFromIdeal e₂ m₂ h₂ * p) :=
      min_le_min le_rfl (mul_le_mul_of_nonneg_right hd hp)
    linarith

/-- Witness for C2 at the configured penalty factor 1: the ideal distribution
deviates no more than the all-Easy distribution, so the latter scores no
higher. -/
theorem difficultyBalance_ideal_and_monotone_check :
    (0 : ℚ) ≤ 1 ∧
    deviationFromIdeal 30 50 20 ≤ deviationFromIdeal 100 0 0 ∧
    difficultyBalanceP 1 100 0 0 ≤ difficultyBalanceP 1 30 50 20 :=
  ⟨by norm_num,
   by norm_num [deviationFromIdeal, idealEasy, idealMedium, idealHard],
   (difficultyBalance_ideal_and_monotone 1 (by norm_num)).2 30 50 20 100 0 0
     (by norm_num [deviationFromIdeal, idealEasy, idealMedium, idealHard])⟩

/-- C3: for every coverage the Topic Matcher builds (either matching path),
covered topics plus ignored topics equals total topics, and every topic of
the fixed topic set appears in the `topic_coverage` mapping (possibly with
count 0). -/
theorem topicCoverage_partition_invariant :
    ∀ (assign : Nat → List String) (numQs : Nat) (topics : List String),
      (buildCoverage assign numQs topics).covered_topics
          + (buildCoverage assign numQs topics).ignored_topics.length
        = (buildCoverage assign numQs topics).total_topics ∧
      ∀ t ∈ topics, ∃ c, (t, c) ∈ (buildCoverage assign numQs topics).topic_coverage := by
  intro assign numQs topics
  constructor
  · have h := List.length_eq_length_filter_add
      (l := topics.map (fun t => (t, countFor assign numQs t)))
      (fun p => p.2 != 0)
    simp only [buildCoverage, List.length_map] at h ⊢
    omega
  · intro t ht
    exact ⟨countFor assign numQs t,
      List.mem_map_of_mem (fun t => (t, countFor assign numQs t)) ht⟩

/-- Witness for C3 on a concrete two-topic syllabus where only the first
topic is matched. -/
theorem topicCoverage_partition_invariant_check :
    ("Networks" ∈ ["Networks", "Databases"] ∧
      ∃ c, ("Networks", c) ∈
        (buildCoverage (fun _ => ["Networks"]) 2 ["Networks", "Databases"]).topic_coverage) ∧
    (buildCoverage (fun _ => ["Networks"]) 2 ["Networks", "Databases"]).covered_topics
        + (buildCoverage (fun _ => ["Networks"]) 2 ["Networks", "Databases"]).ignored_topics.length
      = (buildCoverage (fun _ => ["Networks"]) 2 ["Networks", "Databases"]).total_topics :=
  ⟨⟨by decide,
    (topicCoverage_partition_invariant (fun _ => ["Networks"]) 2 ["Networks", "Databases"]).2
      "Networks" (by decide)⟩,
   (topicCoverage_partition_invariant (fun _ => ["Networks"]) 2 ["Networks", "Databases"]).1⟩

/-- C4: with the external classifier unavailable for the whole batch or for
any specific index, `classify` still returns exactly one Question per input
question, in input order (question `i` keeps id `i` and its input text), each
with a difficulty from the closed three-level enumeration and a cognitive
level from the closed six-level enumeration; and changing (for example,
malforming) the response at one index leaves every other position of the
batch unchanged. -/
theorem classify_fallback_total :
    ∀ (resp : Nat → Option ClassEntry) (qs : List String),
      (classify resp qs).length = qs.length ∧
      (∀ i, i < qs.length →
        ((classify resp qs)[i]?).map Question.id = some i ∧
        ((classify resp qs)[i]?).map Question.text = some (qs.getD i "")) ∧
      (∀ q ∈ classify resp qs,
        q.difficulty ∈ allDifficulties ∧ q.cognitive_level ∈ allLevels) ∧
      (∀ (resp' : Nat → Option ClassEntry) (j : Nat),
        (∀ k, k ≠ j → resp' k = resp k) →
        ∀ i, i ≠ j → (classify resp' qs)[i]? = (classify resp qs)[i]?) := by
  intro resp qs
  refine ⟨by simp [classify], ?_, ?_, ?_⟩
  · intro i hi
    simp only [classify, List.getElem?_map, List.getElem?_range hi, Option.map_some']
    cases h : resp i <;> simp [h, fallbackClassify]
  · intro q _
    exact ⟨mem_allDifficulties _, mem_allLevels _⟩
  · intro resp' j hj i hi
    by_cases hlt : i < qs.length
    · simp only [classify, List.getElem?_map, List.getElem?_range hlt, Option.map_some']
      rw [hj i hi]
    · have h1 : (classify resp' qs).length ≤ i := by simp [classify]; omega
      have h2 : (classify resp qs).length ≤ i := by simp [classify]; omega
      rw [List.getElem?_eq_none h1, List.getElem?_eq_none h2]

/-- The response used by the C4 witness: well formed at index 1 only. -/
def respOneGood : Nat → Option ClassEntry :=
  fun k => if k = 1 then some ⟨.medium, .understand, []⟩ else none

/-- Witness for C4: a two-question batch classified with the service fully
unavailable has length 2 with in-order ids, and malforming index 1 of
`respOneGood` (turning it into the fully-unavailable response) leaves
position 0 unchanged. -/
theorem classify_fallback_total_check :
    (classify (fun _ => none) ["Define the OSI model.", "Analyze merge sort."]).length = 2 ∧
    (0 < 2 ∧
      ((classify (fun _ => none) ["Define the OSI model.", "Analyze merge sort."])[0]?).map
        Question.id = some 0) ∧
    ((0 : Nat) ≠ 1 ∧
      (classify (fun _ => none) ["Define the OSI model.", "Analyze merge sort."])[0]? =
      (classify respOneGood ["Define the OSI model.", "Analyze merge sort."])[0]?) :=
  ⟨(classify_fallback_total (fun _ => none)
      ["Define the OSI model.", "Analyze merge sort."]).1,
   ⟨by decide,
    ((classify_fallback_total (fun _ => none)
      ["Define the OSI model.", "Analyze merge sort."]).2.1 0 (by decide)).1⟩,
   ⟨by decide,
    (classify_fallback_total respOneGood
      ["Define the OSI model.", "Analyze merge sort."]).2.2.2 (fun _ => none) 1
      (fun k hk => by simp [respOneGood, hk]) 0 (by decide)⟩⟩

/-- Whether an analysis run completes is a function of the input alone:
non-empty questions and a non-blank syllabus. -/
theorem isOkB_runAnalysis (env : ClassifierEnv) (fname : String)
    (qtexts : List String) (syl : String) :
    isOkB (runAnalysis env fname qtexts syl) =
      if qtexts.isEmpty then false else if trimStr syl = "" then false else true := by
  unfold runAnalysis extract_topics
  by_cases hq : qtexts.isEmpty
  · simp [hq, isOkB]
  · by_cases hs : trimStr syl = ""
    · simp [hq, hs, isOkB]
    · cases henv : env.topicsResp with
      | none => simp [hq, hs, henv, isOkB]
      | some ts =>
        by_cases hw : wellFormedTopics ts <;> simp [hq, hs, henv, hw, isOkB]

/-- C5: every analysis run either completes with a full `FairnessResult` or
fails with a single input-level error and no result (the `Except` return is
all-or-nothing); whether it completes does not depend on the external
classifier environment, so classifier failures (Unavailable, Timeout,
MalformedResponse) never surface to the caller; empty input surfaces an
input-level error, and non-empty input with a non-blank syllabus always
yields a full result, in every environment. -/
theorem analysis_all_or_nothing :
    ∀ (env env' : ClassifierEnv) (fname : String) (qtexts : List String) (syl : String),
      isOkB (runAnalysis env fname qtexts syl) = isOkB (runAnalysis env' fname qtexts syl) ∧
      (qtexts = [] →
        runAnalysis env fname qtexts syl =
          .error (.inputError "No questions found in the exam paper")) ∧
      (qtexts ≠ [] → trimStr syl ≠ "" →
        ∃ r, runAnalysis env fname qtexts syl = .ok r) := by
  intro env env' fname qtexts syl
  refine ⟨by rw [isOkB_runAnalysis, isOkB_runAnalysis], ?_, ?_⟩
  · intro h
    subst h
    simp [runAnalysis]
  · intro h1 h2
    have hq : qtexts.isEmpty = false := by
      cases qtexts with
      | nil => exact absurd rfl h1
      | cons a l => rfl
    have hok : isOkB (runAnalysis env fname qtexts syl) = true := by
      rw [isOkB_runAnalysis, hq, if_neg (by simp), if_neg h2]
    cases hrun : runAnalysis env fname qtexts syl with
    | ok r => exact ⟨r, rfl⟩
    | error e => rw [hrun] at hok; simp [isOkB] at hok

/-- Witness for C5: a one-question exam against a one-line syllabus, with the
external classifier entirely unavailable, still completes with a full
result. -/
theorem analysis_all_or_nothing_check :
    (["Define the OSI model."] ≠ ([] : List String)) ∧
    trimStr "Unit 1: Computer Networks" ≠ "" ∧
    ∃ r, runAnalysis unavailableEnv "exam.txt" ["Define the OSI model."]
      "Unit 1: Computer Networks" = .ok r :=
  ⟨by decide, by decide,
   (analysis_all_or_nothing unavailableEnv unavailableEnv "exam.txt"
      ["Define the OSI model."] "Unit 1: Computer Networks").2.2
      (by decide) (by decide)⟩

/-- C6: the serialised result object carries exactly the contracted field
names and nesting, for every result (so in particular for every completed
analysis): the nine top-level fields, the three component entries each with
score/weight/weighted_contribution, and the documented sub-fields of the
difficulty, Bloom, coverage, bias and metadata objects. -/
theorem result_shape_contract :
    ∀ r : FairnessResult,
      keysAt (encodeResult r) [] =
        ["fairness_score", "interpretation", "component_scores", "suggestions",
         "difficulty_analysis", "blooms_analysis", "coverage_analysis",
         "bias_analysis", "exam_metadata"] ∧
      keysAt (encodeResult r) ["component_scores"] =
        ["difficulty_balance", "blooms_balance", "syllabus_coverage"] ∧
      keysAt (encodeResult r) ["component_scores", "difficulty_balance"] =
        ["score", "weight", "weighted_contribution"] ∧
      keysAt (encodeResult r) ["component_scores", "blooms_balance"] =
        ["score", "weight", "weighted_contribution"] ∧
      keysAt (encodeResult r) ["component_scores", "syllabus_coverage"] =
        ["score", "weight", "weighted_contribution"] ∧
      keysAt (encodeResult r) ["difficulty_analysis"] =
        ["distribution", "total_questions"] ∧
      keysAt (encodeResult r) ["difficulty_analysis", "distribution"] =
        ["Easy", "Medium", "Hard"] ∧
      keysAt (encodeResult r) ["blooms_analysis"] = ["distribution"] ∧
      keysAt (encodeResult r) ["blooms_analysis", "distribution"] =
        ["Remember", "Understand", "Apply", "Analyze", "Evaluate", "Create"] ∧
      keysAt (encodeResult r) ["coverage_analysis"] =
        ["coverage_percentage", "covered_topics", "total_topics",
         "over_represented", "ignored_topics", "topic_coverage"] ∧
      keysAt (encodeResult r) ["bias_analysis"] =
        ["bias_detected", "issues", "fairness_indicators"] ∧
      keysAt (encodeResult r) ["exam_metadata"] =
        ["exam_filename", "total_questions"] := by
  intro r
  exact ⟨rfl, rfl, rfl, rfl, rfl, rfl, rfl, rfl, rfl, rfl, rfl, rfl⟩

/-- Exactly one interpretation band applies to each score: membership in a
band's interval coincides with the band the code's if-chain selects. -/
theorem bandMem_iff_bandOf (b : Band) (s : ℚ) : bandMem b s ↔ bandOf s = b := by
  unfold bandOf bandMem
  by_cases h85 : s ≥ 85 <;> by_cases h70 : s ≥ 70 <;> by_cases h55 : s ≥ 55 <;>
    by_cases h40 : s ≥ 40 <;> cases b <;> simp [h85, h70, h55, h40] <;> linarith

/-- C7: over every score in the interval from 0 to 100, the interpretation
bands (at least 85 Excellent, 70 to 85 Good, 55 to 70 Fair, 40 to 55 Needs
Improvement, below 40 Poor) are total and non-overlapping: exactly one band
applies, it is the band the code's if-chain selects, and `getScoreColor`
returns exactly that band's colour. -/
theorem interpretation_bands_partition :
    ∀ s : ℚ, 0 ≤ s → s ≤ 100 →
      (∃! b : Band, bandMem b s) ∧
      bandMem (bandOf s) s ∧
      getScoreColor s = bandColor (bandOf s) := by
  intro s h0 h100
  have htot : bandMem (bandOf s) s := (bandMem_iff_bandOf (bandOf s) s).mpr rfl
  refine ⟨⟨bandOf s, htot, fun b' hb' => ((bandMem_iff_bandOf b' s).mp hb').symm⟩, htot, ?_⟩
  unfold getScoreColor bandOf bandColor
  split_ifs <;> rfl

/-- Witness for C7 at the concrete score 78 (a "Good" score). -/
theorem interpretation_bands_partition_check :
    (0 : ℚ) ≤ 78 ∧ (78 : ℚ) ≤ 100 ∧
    ((∃! b : Band, bandMem b 78) ∧
      bandMem (bandOf 78) 78 ∧
      getScoreColor 78 = bandColor (bandOf 78)) :=
  ⟨by norm_num, by norm_num,
   interpretation_bands_partition 78 (by norm_num) (by norm_num)⟩

/-- C8: the Fairness Scorer is pure and deterministic — run in any two
external-classifier environments (the only external collaborator of the
engine), the scorer stage produces the same `FairnessResult` for the same
`(questions, coverage)` input, and that result is exactly the one of the
environment-free function `score`; re-scoring identical inputs yields an
identical result. -/
theorem scorer_deterministic_no_external_calls :
    ∀ (env₁ env₂ : ClassifierEnv) (qs : List Question) (tc : TopicCoverage)
      (fname : String),
      scoreInEnv env₁ qs tc fname = scoreInEnv env₂ qs tc fname ∧
      scoreInEnv env₁ qs tc fname = score qs tc fname :=
  fun _ _ _ _ _ => ⟨rfl, rfl⟩

/-- String concatenation is associative. -/
theorem strAppend_assoc (a b c : String) : a ++ b ++ c = a ++ (b ++ c) := by
  cases a with
  | mk la =>
    cases b with
    | mk lb =>
      cases c with
      | mk lc =>
        show String.mk (la ++ lb ++ lc) = String.mk (la ++ (lb ++ lc))
        rw [List.append_assoc]

/-- C9: when `total_questions` is 0, the `DifficultyChart` tooltip percentage
is the literal 0 — the division `(value / total_questions) * 100` is only
taken under the guard `total_questions > 0` — and the rendered tooltip label
reads `(0%)`. -/
theorem difficulty_tooltip_zero_guard :
    ∀ (label : String) (value : Nat),
      tooltipPercentage value 0 = "0" ∧
      tooltipLabel label value 0 =
        label ++ ": " ++ toString value ++ " questions (0%)" := by
  intro label value
  refine ⟨rfl, ?_⟩
  show label ++ ": " ++ toString value ++ " questions (" ++ "0" ++ "%)" =
    label ++ ": " ++ toString value ++ " questions (0%)"
  rw [strAppend_assoc (label ++ ": " ++ toString value ++ " questions (") "0" "%)",
    strAppend_assoc (label ++ ": " ++ toString value) " questions (" ("0" ++ "%)")]
  exact congrArg (fun t => label ++ ": " ++ toString value ++ t) rfl

/-- C10: `UploadForm` invokes `onAnalyze` only when both files are selected —
in every state where either file is missing, the submit handler makes no
call and the analyze button is disabled; and every call it does make carries
exactly the two selected files. -/
theorem uploadForm_requires_both_files :
    ∀ st : UploadFormState,
      ((st.examFile = none ∨ st.syllabusFile = none) →
        handleSubmit st = none ∧ analyzeButtonDisabled st = true) ∧
      (∀ e s, handleSubmit st = some (e, s) →
        st.examFile = some e ∧ st.syllabusFile = some s) := by
  intro st
  obtain ⟨ex, sy⟩ := st
  constructor
  · rintro (h | h) <;> subst h
    · cases sy <;> simp [handleSubmit, analyzeButtonDisabled, isReady]
    · cases ex <;> simp [handleSubmit, analyzeButtonDisabled, isReady]
  · intro e s h
    cases ex <;> cases sy <;> simp [handleSubmit] at h ⊢ <;> exact ⟨h.1, h.2⟩

/-- Witness for C10: with no exam file selected, no call is made and the
button is disabled. -/
theorem uploadForm_requires_both_files_check :
    ((⟨none, some "syllabus.pdf"⟩ : UploadFormState).examFile = none ∨
      (⟨none, some "syllabus.pdf"⟩ : UploadFormState).syllabusFile = none) ∧
    handleSubmit ⟨none, some "syllabus.pdf"⟩ = none ∧
    analyzeButtonDisabled ⟨none, some "syllabus.pdf"⟩ = true :=
  ⟨Or.inl rfl,
   (uploadForm_requires_both_files ⟨none, some "syllabus.pdf"⟩).1 (Or.inl rfl)⟩

end FairExam
